import Mathlib

/-!
Verification development for the dxvk meta-copy pipeline cache
(`src/dxvk/dxvk_meta_copy.h`).

Shallow embedding conventions:
* Vulkan enums and flag masks are `Nat` values, using the numeric values of
  the Vulkan headers (`VK_FORMAT_D32_SFLOAT = 126`, `VK_IMAGE_ASPECT_DEPTH_BIT = 2`, ...).
* C++ `uint32_t` arithmetic is `Nat` arithmetic reduced modulo `2 ^ 32`.
* The memoization tables (`std::unordered_map` keyed through `DxvkHash` /
  `DxvkEq`, i.e. through the `hash` and `eq` member functions of the keys) are modelled as
  association lists looked up through the embedded `eq` functions.
-/

namespace DxvkMetaCopy

/-- C++ `uint32_t` truncation. -/
def u32 (n : Nat) : Nat := n % 2 ^ 32

/-- Vulkan aspect flag bit `VK_IMAGE_ASPECT_COLOR_BIT`. -/
def ASPECT_COLOR : Nat := 1
/-- Vulkan aspect flag bit `VK_IMAGE_ASPECT_DEPTH_BIT`. -/
def ASPECT_DEPTH : Nat := 2
/-- Vulkan aspect flag bit `VK_IMAGE_ASPECT_STENCIL_BIT`. -/
def ASPECT_STENCIL : Nat := 4

/-- Key type `DxvkMetaImageCopyPipelineKey` from `dxvk_meta_copy.h`:
fields `viewType`, `format`, `samples`. -/
structure DxvkMetaImageCopyPipelineKey where
  viewType : Nat
  format : Nat
  samples : Nat
deriving DecidableEq

/-- Embeds `DxvkMetaImageCopyPipelineKey::eq`: field-wise comparison of
`viewType`, `format` and `samples`. -/
def DxvkMetaImageCopyPipelineKey.eq
    (a b : DxvkMetaImageCopyPipelineKey) : Bool :=
  a.viewType == b.viewType && a.format == b.format && a.samples == b.samples

/-- Embeds `DxvkMetaImageCopyPipelineKey::hash`:
`(uint32_t(format) << 8) ^ (uint32_t(samples) << 4) ^ uint32_t(viewType)`,
computed in `uint32_t`. -/
def DxvkMetaImageCopyPipelineKey.hash
    (k : DxvkMetaImageCopyPipelineKey) : Nat :=
  (u32 (k.format <<< 8)) ^^^ (u32 (k.samples <<< 4)) ^^^ (u32 k.viewType)

/-- Key type `DxvkMetaBufferImageCopyPipelineKey` from `dxvk_meta_copy.h`:
fields `imageViewType`, `imageFormat`, `bufferFormat`, `imageAspects`. -/
structure DxvkMetaBufferImageCopyPipelineKey where
  imageViewType : Nat
  imageFormat : Nat
  bufferFormat : Nat
  imageAspects : Nat
deriving DecidableEq

/-- Embeds `DxvkMetaBufferImageCopyPipelineKey::eq`: field-wise comparison of all
four fields. -/
def DxvkMetaBufferImageCopyPipelineKey.eq
    (a b : DxvkMetaBufferImageCopyPipelineKey) : Bool :=
  a.imageViewType == b.imageViewType
    && a.imageFormat == b.imageFormat
    && a.imageAspects == b.imageAspects
    && a.bufferFormat == b.bufferFormat

/-- Embeds `DxvkMetaBufferImageCopyPipelineKey::hash`:
`uint32_t(imageViewType) ^ (uint32_t(imageAspects) << 4)
 ^ (uint32_t(imageFormat) << 8) ^ (uint32_t(bufferFormat) << 16)`,
computed in `uint32_t`. -/
def DxvkMetaBufferImageCopyPipelineKey.hash
    (k : DxvkMetaBufferImageCopyPipelineKey) : Nat :=
  (u32 k.imageViewType) ^^^ (u32 (k.imageAspects <<< 4))
    ^^^ (u32 (k.imageFormat <<< 8)) ^^^ (u32 (k.bufferFormat <<< 16))

/-- Scalar C types appearing in the push-constant structs of
`dxvk_meta_copy.h`, with `VkOffset3D` three `int32_t`, `VkExtent3D` three
`uint32_t` and `VkExtent2D` two `uint32_t`. -/
inductive CField where
  | int32x3
  | uint32x3
  | uint32x2
  | uint32x1
deriving DecidableEq

/-- Byte size of each field type (all members are 4-byte scalars). -/
def CField.byteSize : CField → Nat
  | .int32x3 => 12
  | .uint32x3 => 12
  | .uint32x2 => 8
  | .uint32x1 => 4

/-- Field sequence of `DxvkFormattedBufferCopyArgs` exactly as declared:
`dstOffset` (`VkOffset3D`), `pad0`, `srcOffset` (`VkOffset3D`), `pad1`,
`extent` (`VkExtent3D`), `pad2`, `dstSize` (`VkExtent2D`),
`srcSize` (`VkExtent2D`). -/
def dxvkFormattedBufferCopyArgsFields : List (String × CField) :=
  [("dstOffset", .int32x3), ("pad0", .uint32x1),
   ("srcOffset", .int32x3), ("pad1", .uint32x1),
   ("extent", .uint32x3), ("pad2", .uint32x1),
   ("dstSize", .uint32x2),
   ("srcSize", .uint32x2)]

/-- Field sequence of `DxvkBufferImageCopyArgs` exactly as declared. -/
def dxvkBufferImageCopyArgsFields : List (String × CField) :=
  [("imageOffset", .int32x3), ("bufferOffset", .uint32x1),
   ("imageExtent", .uint32x3), ("bufferImageWidth", .uint32x1),
   ("bufferImageHeight", .uint32x1), ("stencilBitIndex", .uint32x1)]

/-- Total size of a standard-layout struct whose members are all 4-byte
aligned with sizes that are multiples of 4: no implicit padding, the size
is the sum of member sizes. -/
def structByteSize (fs : List (String × CField)) : Nat :=
  (fs.map (fun f => f.2.byteSize)).sum

/-- Byte offset of each member of a standard-layout struct with no implicit
padding: the running sum of the preceding member sizes. -/
def fieldOffsets : List (String × CField) → Nat → List (String × Nat)
  | [], _ => []
  | f :: rest, off => (f.1, off) :: fieldOffsets rest (off + f.2.byteSize)

/-- Categories of Vulkan formats, as relevant to the format resolver. -/
inductive FormatCategory where
  | undefinedCat
  | colorCat
  | depthCat
  | stencilCat
deriving DecidableEq

open FormatCategory

/-- Category of each format in the modelled domain (Vulkan numeric values):
13 = R8_UINT, 37 = R8G8B8A8_UNORM, 70 = R16_UNORM, 74 = R16_UINT,
98 = R32_UINT, 100 = R32_SFLOAT, 124 = D16_UNORM,
125 = X8_D24_UNORM_PACK32, 126 = D32_SFLOAT, 127 = S8_UINT. -/
def formatCategory : Nat → FormatCategory
  | 13 => colorCat
  | 37 => colorCat
  | 70 => colorCat
  | 74 => colorCat
  | 98 => colorCat
  | 100 => colorCat
  | 124 => depthCat
  | 125 => depthCat
  | 126 => depthCat
  | 127 => stencilCat
  | _ => undefinedCat

/-- Bits per texel of each format in the modelled domain
(`X8_D24_UNORM_PACK32` is a 32-bit packed format). -/
def formatBitWidth : Nat → Nat
  | 13 => 8
  | 37 => 32
  | 70 => 16
  | 74 => 16
  | 98 => 32
  | 100 => 32
  | 124 => 16
  | 125 => 32
  | 126 => 32
  | 127 => 8
  | _ => 0

/-- Channel count of each format in the modelled domain. -/
def formatChannels : Nat → Nat
  | 13 => 1
  | 37 => 4
  | 70 => 1
  | 74 => 1
  | 98 => 1
  | 100 => 1
  | 124 => 1
  | 125 => 1
  | 126 => 1
  | 127 => 1
  | _ => 0

/-- Whether a format of the modelled domain is block-compressed: none of the
formats handled by the meta-copy path are. -/
def formatCompressed : Nat → Bool
  | _ => false

/-- Membership in the modelled format domain. -/
def legalCopyFormat (f : Nat) : Bool :=
  f == 13 || f == 37 || f == 70 || f == 74 || f == 98 || f == 100
    || f == 124 || f == 125 || f == 126 || f == 127

/-- Struct `DxvkMetaCopyFormats`: the resolved pair of view formats. -/
structure DxvkMetaCopyFormats where
  dstFormat : Nat
  srcFormat : Nat
deriving DecidableEq

/-- Modelled from the spec: the static bit-width/channel lookup used by
`getCopyImageFormats` (its body, `dxvk_meta_copy.cpp`, is not under `src/`).
Maps a depth or stencil format to the uncompressed color-category format of
equal bit width and channel count; color formats are left unchanged. -/
def depthToColorFormat : Nat → Nat
  | 124 => 70
  | 125 => 98
  | 126 => 100
  | 127 => 13
  | f => f

/-- Modelled from the spec: per-side view-format resolution of
`getCopyImageFormats`. When the aspect mask contains a depth or stencil
aspect the color substitute is chosen; a color aspect passes the format
through unchanged. -/
def resolveViewFormat (format aspect : Nat) : Nat :=
  if aspect &&& (ASPECT_DEPTH ||| ASPECT_STENCIL) != 0 then
    depthToColorFormat format
  else
    format

/-- Modelled from the spec: `DxvkMetaCopyViews` (its constructor body,
`dxvk_meta_copy.cpp`, is not under `src/`). View handles are opaque `Nat`
identifiers; `srcStencilView` is optional. -/
structure DxvkMetaCopyViews where
  dstImageView : Nat
  srcImageView : Nat
  srcStencilView : Option Nat
deriving DecidableEq

/-- Modelled from the spec: the `DxvkMetaCopyViews` constructor. It creates
a destination view and a source view, and creates the stencil-only source
view exactly when the source subresource aspect mask contains both the depth
and the stencil aspect (same subresource, aspect narrowed to stencil). -/
def makeMetaCopyViews
    (dstImage : Nat) (dstAspects : Nat) (dstFormat : Nat)
    (srcImage : Nat) (srcAspects : Nat) (srcFormat : Nat) :
    DxvkMetaCopyViews :=
  { dstImageView := 2 * dstImage + dstFormat % 2
    srcImageView := 2 * srcImage + srcFormat % 2 + 1
    srcStencilView :=
      if (srcAspects &&& ASPECT_DEPTH != 0) && (srcAspects &&& ASPECT_STENCIL != 0) then
        some (2 * srcImage + dstAspects % 2 + 2)
      else
        none }

/-- Struct `DxvkMetaCopyPipeline`: a borrowed layout reference and an owned
pipeline handle, both modelled as opaque `Nat` identifiers. -/
structure DxvkMetaCopyPipeline where
  layout : Nat
  pipeline : Nat
deriving DecidableEq

/-- Association-list table keyed by `DxvkMetaImageCopyPipelineKey`,
modelling `m_copyImagePipelines`. -/
abbrev ImgTable := List (DxvkMetaImageCopyPipelineKey × DxvkMetaCopyPipeline)

/-- Association-list table keyed by `DxvkMetaBufferImageCopyPipelineKey`,
modelling `m_bufferToImagePipelines` and `m_imageToBufferPipelines`. -/
abbrev BufTable := List (DxvkMetaBufferImageCopyPipelineKey × DxvkMetaCopyPipeline)

/-- Lookup through the `eq` function of the key type, as the `DxvkEq`-keyed
`std::unordered_map` does. -/
def lookupImg (tbl : ImgTable) (k : DxvkMetaImageCopyPipelineKey) :
    Option DxvkMetaCopyPipeline :=
  match tbl with
  | [] => none
  | (k2, p) :: rest => if k2.eq k then some p else lookupImg rest k

/-- Lookup through `DxvkMetaBufferImageCopyPipelineKey::eq`. -/
def lookupBuf (tbl : BufTable) (k : DxvkMetaBufferImageCopyPipelineKey) :
    Option DxvkMetaCopyPipeline :=
  match tbl with
  | [] => none
  | (k2, p) :: rest => if k2.eq k then some p else lookupBuf rest k

/-- Number of table entries whose key compares `eq` to `k`. -/
def countImg (tbl : ImgTable) (k : DxvkMetaImageCopyPipelineKey) : Nat :=
  (tbl.filter (fun e => e.1.eq k)).length

/-- Number of table entries whose key compares `eq` to `k`. -/
def countBuf (tbl : BufTable) (k : DxvkMetaBufferImageCopyPipelineKey) : Nat :=
  (tbl.filter (fun e => e.1.eq k)).length

/-- Modelled from the spec: the mutable state of `DxvkMetaCopyObjects`
(the method bodies, `dxvk_meta_copy.cpp`, are not under `src/`): the three
memoization tables, the keyless singleton slot `m_copyBufferImagePipeline`,
and a counter of pipeline-creation calls that doubles as the fresh-handle
source, so that every created pipeline gets a distinct nonzero handle. -/
structure MetaCopyState where
  copyImagePipelines : ImgTable
  bufferToImagePipelines : BufTable
  imageToBufferPipelines : BufTable
  copyBufferImagePipeline : Option DxvkMetaCopyPipeline
  pipelinesCreated : Nat
deriving DecidableEq

/-- The state right after `DxvkMetaCopyObjects` construction: all tables
empty, the singleton slot null, nothing created. -/
def initialState : MetaCopyState :=
  { copyImagePipelines := []
    bufferToImagePipelines := []
    imageToBufferPipelines := []
    copyBufferImagePipeline := none
    pipelinesCreated := 0 }

/-- Modelled from the spec: `createCopyImagePipeline` — one
pipeline-creation call producing a fresh handle, counted by
`pipelinesCreated`. -/
def createPipeline (s : MetaCopyState) : DxvkMetaCopyPipeline × MetaCopyState :=
  (⟨0, s.pipelinesCreated + 1⟩,
   { s with pipelinesCreated := s.pipelinesCreated + 1 })

/-- Modelled from the spec: `getCopyImagePipeline` under the shared lock —
on hit return the stored handle by value, on miss create one pipeline,
insert it into `m_copyImagePipelines`, and return it. -/
def getCopyImagePipeline (s : MetaCopyState)
    (k : DxvkMetaImageCopyPipelineKey) :
    DxvkMetaCopyPipeline × MetaCopyState :=
  match lookupImg s.copyImagePipelines k with
  | some p => (p, s)
  | none =>
    let r := createPipeline s
    (r.1, { r.2 with copyImagePipelines := (k, r.1) :: r.2.copyImagePipelines })

/-- Modelled from the spec: `getCopyBufferToImagePipeline`, keyed into
`m_bufferToImagePipelines`. -/
def getCopyBufferToImagePipeline (s : MetaCopyState)
    (k : DxvkMetaBufferImageCopyPipelineKey) :
    DxvkMetaCopyPipeline × MetaCopyState :=
  match lookupBuf s.bufferToImagePipelines k with
  | some p => (p, s)
  | none =>
    let r := createPipeline s
    (r.1, { r.2 with bufferToImagePipelines := (k, r.1) :: r.2.bufferToImagePipelines })

/-- Modelled from the spec: `getCopyImageToBufferPipeline`, keyed into
`m_imageToBufferPipelines`. -/
def getCopyImageToBufferPipeline (s : MetaCopyState)
    (k : DxvkMetaBufferImageCopyPipelineKey) :
    DxvkMetaCopyPipeline × MetaCopyState :=
  match lookupBuf s.imageToBufferPipelines k with
  | some p => (p, s)
  | none =>
    let r := createPipeline s
    (r.1, { r.2 with imageToBufferPipelines := (k, r.1) :: r.2.imageToBufferPipelines })

/-- Modelled from the spec: `getCopyFormattedBufferPipeline` — the keyless
singleton: built on first call into `m_copyBufferImagePipeline`, returned
unchanged thereafter. -/
def getCopyFormattedBufferPipeline (s : MetaCopyState) :
    DxvkMetaCopyPipeline × MetaCopyState :=
  match s.copyBufferImagePipeline with
  | some p => (p, s)
  | none =>
    let r := createPipeline s
    (r.1, { r.2 with copyBufferImagePipeline := some r.1 })

/-- Embeds `getCopyImageFormats` as a method of the cache object: declared `const`
in the header; modelled from the spec as reading no mutable state — the
result is the pure per-side resolution. -/
def getCopyImageFormats (s : MetaCopyState)
    (dstFormat dstAspect srcFormat srcAspect : Nat) : DxvkMetaCopyFormats :=
  let _ := s
  ⟨resolveViewFormat dstFormat dstAspect, resolveViewFormat srcFormat srcAspect⟩

/-- The public operations of `DxvkMetaCopyObjects`. -/
inductive MetaCopyOp where
  | copyImage (k : DxvkMetaImageCopyPipelineKey)
  | bufferToImage (k : DxvkMetaBufferImageCopyPipelineKey)
  | imageToBuffer (k : DxvkMetaBufferImageCopyPipelineKey)
  | formattedBuffer
  | queryFormats (dstFormat dstAspect srcFormat srcAspect : Nat)

/-- State transition of one public operation. `queryFormats` is the `const`
method `getCopyImageFormats`: it produces its value without touching the
state. -/
def stepOp (s : MetaCopyState) : MetaCopyOp → MetaCopyState
  | .copyImage k => (getCopyImagePipeline s k).2
  | .bufferToImage k => (getCopyBufferToImagePipeline s k).2
  | .imageToBuffer k => (getCopyImageToBufferPipeline s k).2
  | .formattedBuffer => (getCopyFormattedBufferPipeline s).2
  | .queryFormats _ _ _ _ => s

/-- Runs `n` repeated calls to `getCopyImagePipeline` with the same key,
collecting the returned handles. -/
def getCopyImagePipelineN (s : MetaCopyState)
    (k : DxvkMetaImageCopyPipelineKey) :
    Nat → List DxvkMetaCopyPipeline × MetaCopyState
  | 0 => ([], s)
  | n + 1 =>
    let r := getCopyImagePipeline s k
    let rest := getCopyImagePipelineN r.2 k n
    (r.1 :: rest.1, rest.2)

/-- Runs `n` repeated calls to `getCopyFormattedBufferPipeline`, collecting the
returned handles. -/
def getCopyFormattedBufferPipelineN (s : MetaCopyState) :
    Nat → List DxvkMetaCopyPipeline × MetaCopyState
  | 0 => ([], s)
  | n + 1 =>
    let r := getCopyFormattedBufferPipeline s
    let rest := getCopyFormattedBufferPipelineN r.2 n
    (r.1 :: rest.1, rest.2)

/-! Helper lemmas shared by several claim theorems. -/

theorem imgKey_eq_iff (a b : DxvkMetaImageCopyPipelineKey) :
    a.eq b = true ↔ a = b := by
  cases a; cases b
  simp [DxvkMetaImageCopyPipelineKey.eq, DxvkMetaImageCopyPipelineKey.mk.injEq,
    Bool.and_eq_true, beq_iff_eq, and_assoc]

theorem bufKey_eq_iff (a b : DxvkMetaBufferImageCopyPipelineKey) :
    a.eq b = true ↔ a = b := by
  cases a; cases b
  simp only [DxvkMetaBufferImageCopyPipelineKey.eq,
    DxvkMetaBufferImageCopyPipelineKey.mk.injEq,
    Bool.and_eq_true, beq_iff_eq]
  constructor
  · rintro ⟨⟨⟨h1, h2⟩, h3⟩, h4⟩
    exact ⟨h1, h2, h4, h3⟩
  · rintro ⟨h1, h2, h3, h4⟩
    exact ⟨⟨⟨h1, h2⟩, h4⟩, h3⟩

theorem imgKey_eq_refl (a : DxvkMetaImageCopyPipelineKey) : a.eq a = true :=
  (imgKey_eq_iff a a).mpr rfl

theorem bufKey_eq_refl (a : DxvkMetaBufferImageCopyPipelineKey) : a.eq a = true :=
  (bufKey_eq_iff a a).mpr rfl

theorem lookupImg_none_count (tbl : ImgTable) (k : DxvkMetaImageCopyPipelineKey)
    (h : lookupImg tbl k = none) : countImg tbl k = 0 := by
  induction tbl with
  | nil => rfl
  | cons e rest ih =>
    obtain ⟨k2, p⟩ := e
    cases he : k2.eq k with
    | true => simp [lookupImg, he] at h
    | false =>
      simp only [lookupImg, he, Bool.false_eq_true, if_false] at h
      simp only [countImg, List.filter_cons, he, Bool.false_eq_true, if_false]
      exact ih h

theorem lookupBuf_none_count (tbl : BufTable) (k : DxvkMetaBufferImageCopyPipelineKey)
    (h : lookupBuf tbl k = none) : countBuf tbl k = 0 := by
  induction tbl with
  | nil => rfl
  | cons e rest ih =>
    obtain ⟨k2, p⟩ := e
    cases he : k2.eq k with
    | true => simp [lookupBuf, he] at h
    | false =>
      simp only [lookupBuf, he, Bool.false_eq_true, if_false] at h
      simp only [countBuf, List.filter_cons, he, Bool.false_eq_true, if_false]
      exact ih h

theorem countImg_cons_eq (tbl : ImgTable) (k2 k : DxvkMetaImageCopyPipelineKey)
    (p : DxvkMetaCopyPipeline) (he : k2.eq k = true) :
    countImg ((k2, p) :: tbl) k = countImg tbl k + 1 := by
  simp [countImg, List.filter_cons, he]

theorem countBuf_cons_eq (tbl : BufTable) (k2 k : DxvkMetaBufferImageCopyPipelineKey)
    (p : DxvkMetaCopyPipeline) (he : k2.eq k = true) :
    countBuf ((k2, p) :: tbl) k = countBuf tbl k + 1 := by
  simp [countBuf, List.filter_cons, he]

theorem lookupImg_cons_self (tbl : ImgTable) (k : DxvkMetaImageCopyPipelineKey)
    (p : DxvkMetaCopyPipeline) : lookupImg ((k, p) :: tbl) k = some p := by
  simp [lookupImg, imgKey_eq_refl]

theorem lookupBuf_cons_self (tbl : BufTable) (k : DxvkMetaBufferImageCopyPipelineKey)
    (p : DxvkMetaCopyPipeline) : lookupBuf ((k, p) :: tbl) k = some p := by
  simp [lookupBuf, bufKey_eq_refl]

theorem lookupImg_cons_preserve (tbl : ImgTable)
    (k0 k : DxvkMetaImageCopyPipelineKey) (pN p : DxvkMetaCopyPipeline)
    (hmiss : lookupImg tbl k0 = none) (h : lookupImg tbl k = some p) :
    lookupImg ((k0, pN) :: tbl) k = some p := by
  cases he : k0.eq k with
  | true =>
    rw [(imgKey_eq_iff k0 k).mp he] at hmiss
    rw [hmiss] at h
    exact Option.noConfusion h
  | false =>
    simp only [lookupImg, he, Bool.false_eq_true, if_false]
    exact h

theorem lookupBuf_cons_preserve (tbl : BufTable)
    (k0 k : DxvkMetaBufferImageCopyPipelineKey) (pN p : DxvkMetaCopyPipeline)
    (hmiss : lookupBuf tbl k0 = none) (h : lookupBuf tbl k = some p) :
    lookupBuf ((k0, pN) :: tbl) k = some p := by
  cases he : k0.eq k with
  | true =>
    rw [(bufKey_eq_iff k0 k).mp he] at hmiss
    rw [hmiss] at h
    exact Option.noConfusion h
  | false =>
    simp only [lookupBuf, he, Bool.false_eq_true, if_false]
    exact h

theorem getCopyImagePipeline_hit (s : MetaCopyState)
    (k : DxvkMetaImageCopyPipelineKey) (p : DxvkMetaCopyPipeline)
    (h : lookupImg s.copyImagePipelines k = some p) :
    getCopyImagePipeline s k = (p, s) := by
  simp [getCopyImagePipeline, h]

theorem getCopyImagePipeline_miss (s : MetaCopyState)
    (k : DxvkMetaImageCopyPipelineKey)
    (h : lookupImg s.copyImagePipelines k = none) :
    getCopyImagePipeline s k =
      (⟨0, s.pipelinesCreated + 1⟩,
       { s with
          copyImagePipelines :=
            (k, ⟨0, s.pipelinesCreated + 1⟩) :: s.copyImagePipelines
          pipelinesCreated := s.pipelinesCreated + 1 }) := by
  simp [getCopyImagePipeline, h, createPipeline]

theorem getCopyBufferToImagePipeline_hit (s : MetaCopyState)
    (k : DxvkMetaBufferImageCopyPipelineKey) (p : DxvkMetaCopyPipeline)
    (h : lookupBuf s.bufferToImagePipelines k = some p) :
    getCopyBufferToImagePipeline s k = (p, s) := by
  simp [getCopyBufferToImagePipeline, h]

theorem getCopyBufferToImagePipeline_miss (s : MetaCopyState)
    (k : DxvkMetaBufferImageCopyPipelineKey)
    (h : lookupBuf s.bufferToImagePipelines k = none) :
    getCopyBufferToImagePipeline s k =
      (⟨0, s.pipelinesCreated + 1⟩,
       { s with
          bufferToImagePipelines :=
            (k, ⟨0, s.pipelinesCreated + 1⟩) :: s.bufferToImagePipelines
          pipelinesCreated := s.pipelinesCreated + 1 }) := by
  simp [getCopyBufferToImagePipeline, h, createPipeline]

theorem getCopyImageToBufferPipeline_hit (s : MetaCopyState)
    (k : DxvkMetaBufferImageCopyPipelineKey) (p : DxvkMetaCopyPipeline)
    (h : lookupBuf s.imageToBufferPipelines k = some p) :
    getCopyImageToBufferPipeline s k = (p, s) := by
  simp [getCopyImageToBufferPipeline, h]

theorem getCopyImageToBufferPipeline_miss (s : MetaCopyState)
    (k : DxvkMetaBufferImageCopyPipelineKey)
    (h : lookupBuf s.imageToBufferPipelines k = none) :
    getCopyImageToBufferPipeline s k =
      (⟨0, s.pipelinesCreated + 1⟩,
       { s with
          imageToBufferPipelines :=
            (k, ⟨0, s.pipelinesCreated + 1⟩) :: s.imageToBufferPipelines
          pipelinesCreated := s.pipelinesCreated + 1 }) := by
  simp [getCopyImageToBufferPipeline, h, createPipeline]

theorem getCopyImagePipelineN_hit (s : MetaCopyState)
    (k : DxvkMetaImageCopyPipelineKey) (p : DxvkMetaCopyPipeline)
    (h : lookupImg s.copyImagePipelines k = some p) (n : Nat) :
    getCopyImagePipelineN s k n = (List.replicate n p, s) := by
  induction n with
  | zero => rfl
  | succ m ih =>
    simp [getCopyImagePipelineN, getCopyImagePipeline_hit s k p h, ih,
      List.replicate]

theorem getCopyFormattedBufferPipeline_hit (s : MetaCopyState)
    (p : DxvkMetaCopyPipeline) (h : s.copyBufferImagePipeline = some p) :
    getCopyFormattedBufferPipeline s = (p, s) := by
  simp [getCopyFormattedBufferPipeline, h]

theorem getCopyFormattedBufferPipelineN_hit (s : MetaCopyState)
    (p : DxvkMetaCopyPipeline) (h : s.copyBufferImagePipeline = some p) (n : Nat) :
    getCopyFormattedBufferPipelineN s n = (List.replicate n p, s) := by
  induction n with
  | zero => rfl
  | succ m ih =>
    simp [getCopyFormattedBufferPipelineN,
      getCopyFormattedBufferPipeline_hit s p h, ih, List.replicate]

/-! Claim theorems. -/

/-- C2 (counterexample): the original claim — distinct keys always hash to
distinct values — is false. The keys (viewType 1D, format R4G4B4A4_UNORM_PACK16,
32 samples) and (viewType 1D, format R4G4_UNORM_PACK8, 16 samples) differ in
both `format` and `samples`, yet both hash to 0, because
`(2 << 8) ^ (32 << 4) = 512 ^ 512 = 0` and `(1 << 8) ^ (16 << 4) = 256 ^ 256 = 0`. -/
theorem C2_hash_collision_counterexample :
    ((DxvkMetaImageCopyPipelineKey.mk 0 2 32).format
        == (DxvkMetaImageCopyPipelineKey.mk 0 1 16).format) = false
  ∧ ((DxvkMetaImageCopyPipelineKey.mk 0 2 32).samples
        == (DxvkMetaImageCopyPipelineKey.mk 0 1 16).samples) = false
  ∧ (DxvkMetaImageCopyPipelineKey.mk 0 2 32).hash
      = (DxvkMetaImageCopyPipelineKey.mk 0 1 16).hash := by
  refine ⟨rfl, rfl, ?_⟩
  decide

/-- C2 (amended): the hash functions are consistent with key equality —
`eq`-equal keys of either kind have equal `hash` values — but they are not
injective: distinct configurations may collide (see the counterexample). -/
theorem C2_hash_consistent_with_eq :
    (∀ a b : DxvkMetaImageCopyPipelineKey, a.eq b = true → a.hash = b.hash)
  ∧ (∀ a b : DxvkMetaBufferImageCopyPipelineKey, a.eq b = true → a.hash = b.hash) := by
  constructor
  · intro a b h
    rw [(imgKey_eq_iff a b).mp h]
  · intro a b h
    rw [(bufKey_eq_iff a b).mp h]

/-- C2 (witness): the amended hash-consistency theorem applied to two
field-wise equal concrete keys of each kind. -/
theorem C2_hash_consistent_with_eq_witness :
    (DxvkMetaImageCopyPipelineKey.mk 1 37 1).hash
      = (DxvkMetaImageCopyPipelineKey.mk 1 37 1).hash
  ∧ (DxvkMetaBufferImageCopyPipelineKey.mk 1 37 100 1).hash
      = (DxvkMetaBufferImageCopyPipelineKey.mk 1 37 100 1).hash :=
  ⟨C2_hash_consistent_with_eq.1 ⟨1, 37, 1⟩ ⟨1, 37, 1⟩ (by decide),
   C2_hash_consistent_with_eq.2 ⟨1, 37, 100, 1⟩ ⟨1, 37, 100, 1⟩ (by decide)⟩

/-- C3: for both key types, `eq` is reflexive, symmetric and transitive,
`eq` holds exactly when the keys agree field-wise on every field, and
`eq`-equal keys have equal `hash` values. -/
theorem C3_key_equality_laws :
    (∀ a : DxvkMetaImageCopyPipelineKey, a.eq a = true)
  ∧ (∀ a b : DxvkMetaImageCopyPipelineKey, a.eq b = true → b.eq a = true)
  ∧ (∀ a b c : DxvkMetaImageCopyPipelineKey,
       a.eq b = true → b.eq c = true → a.eq c = true)
  ∧ (∀ a b : DxvkMetaImageCopyPipelineKey,
       a.eq b = true ↔
         (a.viewType = b.viewType ∧ a.format = b.format ∧ a.samples = b.samples))
  ∧ (∀ a b : DxvkMetaImageCopyPipelineKey, a.eq b = true → a.hash = b.hash)
  ∧ (∀ a : DxvkMetaBufferImageCopyPipelineKey, a.eq a = true)
  ∧ (∀ a b : DxvkMetaBufferImageCopyPipelineKey, a.eq b = true → b.eq a = true)
  ∧ (∀ a b c : DxvkMetaBufferImageCopyPipelineKey,
       a.eq b = true → b.eq c = true → a.eq c = true)
  ∧ (∀ a b : DxvkMetaBufferImageCopyPipelineKey,
       a.eq b = true ↔
         (a.imageViewType = b.imageViewType ∧ a.imageFormat = b.imageFormat
           ∧ a.bufferFormat = b.bufferFormat ∧ a.imageAspects = b.imageAspects))
  ∧ (∀ a b : DxvkMetaBufferImageCopyPipelineKey, a.eq b = true → a.hash = b.hash) := by
  refine ⟨imgKey_eq_refl, ?_, ?_, ?_, C2_hash_consistent_with_eq.1,
    bufKey_eq_refl, ?_, ?_, ?_, C2_hash_consistent_with_eq.2⟩
  · intro a b h
    rw [(imgKey_eq_iff a b).mp h]
    exact imgKey_eq_refl b
  · intro a b c hab hbc
    rw [(imgKey_eq_iff a b).mp hab]
    exact hbc
  · intro a b
    rw [imgKey_eq_iff]
    cases a; cases b
    simp [DxvkMetaImageCopyPipelineKey.mk.injEq]
  · intro a b h
    rw [(bufKey_eq_iff a b).mp h]
    exact bufKey_eq_refl b
  · intro a b c hab hbc
    rw [(bufKey_eq_iff a b).mp hab]
    exact hbc
  · intro a b
    rw [bufKey_eq_iff]
    cases a; cases b
    simp only [DxvkMetaBufferImageCopyPipelineKey.mk.injEq]

/-- C3 (witness): the transitivity and hash-consistency components applied
at concrete keys, with both hypotheses discharged by evaluation. -/
theorem C3_key_equality_laws_witness :
    (DxvkMetaImageCopyPipelineKey.mk 1 37 1).eq ⟨1, 37, 1⟩ = true
  ∧ (DxvkMetaBufferImageCopyPipelineKey.mk 1 37 100 1).eq ⟨1, 37, 100, 1⟩ = true :=
  ⟨C3_key_equality_laws.2.2.1 ⟨1, 37, 1⟩ ⟨1, 37, 1⟩ ⟨1, 37, 1⟩
      (by decide) (by decide),
   C3_key_equality_laws.2.2.2.2.2.2.2.1 ⟨1, 37, 100, 1⟩ ⟨1, 37, 100, 1⟩
      ⟨1, 37, 100, 1⟩ (by decide) (by decide)⟩

/-- C4 (counterexample): the claimed total size of 48 bytes is false.
`DxvkFormattedBufferCopyArgs` occupies 64 bytes: three 16-byte
vector-plus-padding groups followed by two 8-byte `VkExtent2D` members. -/
theorem C4_size_counterexample :
    structByteSize dxvkFormattedBufferCopyArgsFields = 64
  ∧ (structByteSize dxvkFormattedBufferCopyArgsFields == 48) = false :=
  ⟨rfl, rfl⟩

/-- C4 (amended): `DxvkFormattedBufferCopyArgs` has exactly the field
sequence dstOffset (3 x int32) + pad, srcOffset (3 x int32) + pad,
extent (3 x uint32) + pad, dstSize (2 x uint32), srcSize (2 x uint32), at
byte offsets 0, 12, 16, 28, 32, 44, 48, 56, and its total size is 64 bytes
(not 48). -/
theorem C4_formatted_buffer_args_layout :
    dxvkFormattedBufferCopyArgsFields =
      [("dstOffset", CField.int32x3), ("pad0", CField.uint32x1),
       ("srcOffset", CField.int32x3), ("pad1", CField.uint32x1),
       ("extent", CField.uint32x3), ("pad2", CField.uint32x1),
       ("dstSize", CField.uint32x2), ("srcSize", CField.uint32x2)]
  ∧ fieldOffsets dxvkFormattedBufferCopyArgsFields 0 =
      [("dstOffset", 0), ("pad0", 12), ("srcOffset", 16), ("pad1", 28),
       ("extent", 32), ("pad2", 44), ("dstSize", 48), ("srcSize", 56)]
  ∧ structByteSize dxvkFormattedBufferCopyArgsFields = 64 :=
  ⟨rfl, rfl, rfl⟩

/-- C5: `getCopyImageFormats` is pure, total and deterministic. It is a
total function of its four format/aspect arguments (no failure path in the
model), and its result does not depend on the cache state at all: calls with
bit-identical inputs from any two states return bit-identical results. -/
theorem C5_getCopyImageFormats_pure_total :
    ∀ (s1 s2 : MetaCopyState) (dstF dstA srcF srcA : Nat),
      getCopyImageFormats s1 dstF dstA srcF srcA
        = getCopyImageFormats s2 dstF dstA srcF srcA := by
  intro s1 s2 dstF dstA srcF srcA
  rfl

/-- C6: for every format of the modelled domain, resolving it under an
aspect mask containing a depth or stencil bit yields an uncompressed
color-category format of equal bit width and channel count; an aspect mask
without depth/stencil bits passes the format through unchanged; and the
concrete scenario resolves (D32_SFLOAT, DEPTH) on both sides to the same
32-bit color format R32_SFLOAT. -/
theorem C6_depth_resolves_to_color :
    (∀ f a, legalCopyFormat f = true →
        (a &&& (ASPECT_DEPTH ||| ASPECT_STENCIL)) ≠ 0 →
        formatCategory (resolveViewFormat f a) = FormatCategory.colorCat
      ∧ formatCompressed (resolveViewFormat f a) = false
      ∧ formatBitWidth (resolveViewFormat f a) = formatBitWidth f
      ∧ formatChannels (resolveViewFormat f a) = formatChannels f)
  ∧ (∀ f a, (a &&& (ASPECT_DEPTH ||| ASPECT_STENCIL)) = 0 →
       resolveViewFormat f a = f)
  ∧ (∀ s : MetaCopyState,
       getCopyImageFormats s 126 ASPECT_DEPTH 126 ASPECT_DEPTH = ⟨100, 100⟩)
  ∧ formatCategory 100 = FormatCategory.colorCat
  ∧ formatBitWidth 100 = 32 := by
  refine ⟨?_, ?_, ?_, rfl, rfl⟩
  · intro f a hf ha
    have hc : (a &&& (ASPECT_DEPTH ||| ASPECT_STENCIL) != 0) = true := by
      simpa [bne_iff_ne] using ha
    simp only [resolveViewFormat, hc, if_true]
    simp only [legalCopyFormat, Bool.or_eq_true, beq_iff_eq] at hf
    rcases hf with (((((((((rfl | rfl) | rfl) | rfl) | rfl) | rfl) | rfl) | rfl) | rfl) | rfl) <;> decide
  · intro f a ha
    have hc : (a &&& (ASPECT_DEPTH ||| ASPECT_STENCIL) != 0) = false := by
      simp [ha]
    simp [resolveViewFormat, hc]
  · intro s
    rfl

/-- C6 (witness): the resolution component applied at the concrete input
(D32_SFLOAT, DEPTH aspect), with both hypotheses discharged by evaluation. -/
theorem C6_depth_resolves_to_color_witness :
    formatCategory (resolveViewFormat 126 ASPECT_DEPTH) = FormatCategory.colorCat
  ∧ formatBitWidth (resolveViewFormat 126 ASPECT_DEPTH) = formatBitWidth 126
  ∧ getCopyImageFormats initialState 126 ASPECT_DEPTH 126 ASPECT_DEPTH = ⟨100, 100⟩ :=
  ⟨(C6_depth_resolves_to_color.1 126 ASPECT_DEPTH (by decide) (by decide)).1,
   (C6_depth_resolves_to_color.1 126 ASPECT_DEPTH (by decide) (by decide)).2.2.1,
   C6_depth_resolves_to_color.2.2.1 initialState⟩

/-- C7: a `DxvkMetaCopyViews` construction produces a source stencil view
exactly when the source subresource aspect mask contains both the depth and
the stencil aspect; a depth-only or color-only source aspect never produces
one, and a combined depth+stencil aspect always produces exactly one (the
`Option` field holds at most one view by construction). -/
theorem C7_stencil_view_iff_depth_and_stencil :
    (∀ dI dA dF sI sA sF,
       (makeMetaCopyViews dI dA dF sI sA sF).srcStencilView.isSome
         = ((sA &&& ASPECT_DEPTH != 0) && (sA &&& ASPECT_STENCIL != 0)))
  ∧ (∀ dI dA dF sI sF,
       (makeMetaCopyViews dI dA dF sI ASPECT_DEPTH sF).srcStencilView = none)
  ∧ (∀ dI dA dF sI sF,
       (makeMetaCopyViews dI dA dF sI ASPECT_COLOR sF).srcStencilView = none)
  ∧ (∀ dI dA dF sI sF,
       (makeMetaCopyViews dI dA dF sI (ASPECT_DEPTH ||| ASPECT_STENCIL) sF).srcStencilView.isSome
         = true) := by
  refine ⟨?_, ?_, ?_, ?_⟩
  · intro dI dA dF sI sA sF
    cases h : ((sA &&& ASPECT_DEPTH != 0) && (sA &&& ASPECT_STENCIL != 0)) with
    | true => simp [makeMetaCopyViews, h]
    | false => simp [makeMetaCopyViews, h]
  · intro dI dA dF sI sF
    rfl
  · intro dI dA dF sI sF
    rfl
  · intro dI dA dF sI sF
    rfl

/-- C1: starting from any cache state in which a configuration `k` is not
yet cached, `n ≥ 1` repeated calls to `getCopyImagePipeline` with that
configuration perform exactly one pipeline creation, all `n` calls return
the same handle, and exactly one table entry `eq`-matching that
configuration exists afterwards (`k2` ranges over all field-wise equal
keys); moreover, for either buffer/image table, two lookups with field-wise
equal keys leave exactly one matching pipeline in the table and return the
same handle. -/
theorem C1_copy_image_pipeline_memoized (s : MetaCopyState)
    (k k2 : DxvkMetaImageCopyPipelineKey) (n : Nat)
    (hfresh : lookupImg s.copyImagePipelines k = none) (hn : 1 ≤ n)
    (hk : k.eq k2 = true) :
    ((getCopyImagePipelineN s k n).2.pipelinesCreated = s.pipelinesCreated + 1
  ∧ (getCopyImagePipelineN s k n).1
      = List.replicate n (getCopyImagePipeline s k).1
  ∧ countImg s.copyImagePipelines k2 = 0
  ∧ countImg (getCopyImagePipelineN s k n).2.copyImagePipelines k2 = 1)
  ∧ (∀ (bs : MetaCopyState) (bk bk2 : DxvkMetaBufferImageCopyPipelineKey),
       lookupBuf bs.bufferToImagePipelines bk = none → bk.eq bk2 = true →
       countBuf (getCopyBufferToImagePipeline
           (getCopyBufferToImagePipeline bs bk).2 bk2).2.bufferToImagePipelines bk2 = 1
     ∧ (getCopyBufferToImagePipeline (getCopyBufferToImagePipeline bs bk).2 bk2).1
         = (getCopyBufferToImagePipeline bs bk).1)
  ∧ (∀ (bs : MetaCopyState) (bk bk2 : DxvkMetaBufferImageCopyPipelineKey),
       lookupBuf bs.imageToBufferPipelines bk = none → bk.eq bk2 = true →
       countBuf (getCopyImageToBufferPipeline
           (getCopyImageToBufferPipeline bs bk).2 bk2).2.imageToBufferPipelines bk2 = 1
     ∧ (getCopyImageToBufferPipeline (getCopyImageToBufferPipeline bs bk).2 bk2).1
         = (getCopyImageToBufferPipeline bs bk).1) := by
  obtain rfl := (imgKey_eq_iff k k2).mp hk
  refine ⟨?_, ?_, ?_⟩
  · cases n with
    | zero => exact absurd hn (by decide)
    | succ m =>
      have hmiss := getCopyImagePipeline_miss s k hfresh
      have hN : getCopyImagePipelineN s k (m + 1)
          = (List.replicate (m + 1)
              (⟨0, s.pipelinesCreated + 1⟩ : DxvkMetaCopyPipeline),
             { s with
                copyImagePipelines :=
                  (k, ⟨0, s.pipelinesCreated + 1⟩) :: s.copyImagePipelines
                pipelinesCreated := s.pipelinesCreated + 1 }) := by
        simp only [getCopyImagePipelineN, hmiss]
        rw [getCopyImagePipelineN_hit _ k ⟨0, s.pipelinesCreated + 1⟩
          (lookupImg_cons_self _ _ _) m]
        rfl
      refine ⟨?_, ?_, lookupImg_none_count _ _ hfresh, ?_⟩
      · rw [hN]
      · rw [hN, hmiss]
      · rw [hN]
        show countImg ((k, ⟨0, s.pipelinesCreated + 1⟩) :: s.copyImagePipelines) k = 1
        rw [countImg_cons_eq _ _ _ _ (imgKey_eq_refl k),
          lookupImg_none_count _ _ hfresh]
  · intro bs bk bk2 hbmiss hbk
    obtain rfl := (bufKey_eq_iff bk bk2).mp hbk
    have hmiss := getCopyBufferToImagePipeline_miss bs bk hbmiss
    rw [hmiss]
    have hhit := getCopyBufferToImagePipeline_hit
      { bs with
          bufferToImagePipelines :=
            (bk, ⟨0, bs.pipelinesCreated + 1⟩) :: bs.bufferToImagePipelines
          pipelinesCreated := bs.pipelinesCreated + 1 }
      bk ⟨0, bs.pipelinesCreated + 1⟩ (lookupBuf_cons_self _ _ _)
    rw [hhit]
    refine ⟨?_, rfl⟩
    show countBuf ((bk, ⟨0, bs.pipelinesCreated + 1⟩) :: bs.bufferToImagePipelines) bk = 1
    rw [countBuf_cons_eq _ _ _ _ (bufKey_eq_refl bk),
      lookupBuf_none_count _ _ hbmiss]
  · intro bs bk bk2 hbmiss hbk
    obtain rfl := (bufKey_eq_iff bk bk2).mp hbk
    have hmiss := getCopyImageToBufferPipeline_miss bs bk hbmiss
    rw [hmiss]
    have hhit := getCopyImageToBufferPipeline_hit
      { bs with
          imageToBufferPipelines :=
            (bk, ⟨0, bs.pipelinesCreated + 1⟩) :: bs.imageToBufferPipelines
          pipelinesCreated := bs.pipelinesCreated + 1 }
      bk ⟨0, bs.pipelinesCreated + 1⟩ (lookupBuf_cons_self _ _ _)
    rw [hhit]
    refine ⟨?_, rfl⟩
    show countBuf ((bk, ⟨0, bs.pipelinesCreated + 1⟩) :: bs.imageToBufferPipelines) bk = 1
    rw [countBuf_cons_eq _ _ _ _ (bufKey_eq_refl bk),
      lookupBuf_none_count _ _ hbmiss]

/-- C1 (witness): the theorem applied to the empty cache, the concrete key
(2D view, R8G8B8A8_UNORM, 1 sample) and two repeated calls. -/
theorem C1_copy_image_pipeline_memoized_witness :
    (getCopyImagePipelineN initialState ⟨1, 37, 1⟩ 2).2.pipelinesCreated
        = initialState.pipelinesCreated + 1
  ∧ (getCopyImagePipelineN initialState ⟨1, 37, 1⟩ 2).1
        = List.replicate 2 (getCopyImagePipeline initialState ⟨1, 37, 1⟩).1
  ∧ countImg (getCopyImagePipelineN initialState ⟨1, 37, 1⟩ 2).2.copyImagePipelines
        ⟨1, 37, 1⟩ = 1 :=
  ⟨(C1_copy_image_pipeline_memoized initialState ⟨1, 37, 1⟩ ⟨1, 37, 1⟩ 2
      rfl (by decide) (by decide)).1.1,
   (C1_copy_image_pipeline_memoized initialState ⟨1, 37, 1⟩ ⟨1, 37, 1⟩ 2
      rfl (by decide) (by decide)).1.2.1,
   (C1_copy_image_pipeline_memoized initialState ⟨1, 37, 1⟩ ⟨1, 37, 1⟩ 2
      rfl (by decide) (by decide)).1.2.2.2⟩

/-- C8: `getCopyFormattedBufferPipeline` maintains a single keyless global
pipeline: from a state whose singleton slot is still empty, the first call
performs one creation and stores the handle in the slot, and every later
sequence of `n` calls returns that same stored handle with no further
creation and no state change. -/
theorem C8_formatted_buffer_singleton (s : MetaCopyState)
    (h : s.copyBufferImagePipeline = none) (n : Nat) :
    (getCopyFormattedBufferPipeline s).2.copyBufferImagePipeline
        = some (getCopyFormattedBufferPipeline s).1
  ∧ (getCopyFormattedBufferPipeline s).2.pipelinesCreated = s.pipelinesCreated + 1
  ∧ getCopyFormattedBufferPipelineN (getCopyFormattedBufferPipeline s).2 n
      = (List.replicate n (getCopyFormattedBufferPipeline s).1,
         (getCopyFormattedBufferPipeline s).2) := by
  have hmiss : getCopyFormattedBufferPipeline s
      = (⟨0, s.pipelinesCreated + 1⟩,
         { s with
            copyBufferImagePipeline := some ⟨0, s.pipelinesCreated + 1⟩
            pipelinesCreated := s.pipelinesCreated + 1 }) := by
    simp [getCopyFormattedBufferPipeline, h, createPipeline]
  rw [hmiss]
  exact ⟨rfl, rfl, getCopyFormattedBufferPipelineN_hit _ _ rfl n⟩

/-- C8 (witness): the theorem applied to the freshly constructed cache and
three subsequent calls. -/
theorem C8_formatted_buffer_singleton_witness :
    (getCopyFormattedBufferPipeline initialState).2.copyBufferImagePipeline
        = some (getCopyFormattedBufferPipeline initialState).1
  ∧ getCopyFormattedBufferPipelineN (getCopyFormattedBufferPipeline initialState).2 3
      = (List.replicate 3 (getCopyFormattedBufferPipeline initialState).1,
         (getCopyFormattedBufferPipeline initialState).2) :=
  ⟨(C8_formatted_buffer_singleton initialState rfl 3).1,
   (C8_formatted_buffer_singleton initialState rfl 3).2.2⟩

/-- C9: no public operation ever mutates, replaces or evicts an existing
table entry or the filled singleton slot: every key-pipeline association
present before an operation is present unchanged afterwards, for each of
the three tables and for `m_copyBufferImagePipeline`. -/
theorem C9_entries_never_replaced_or_evicted (s : MetaCopyState) (op : MetaCopyOp) :
    (∀ k p, lookupImg s.copyImagePipelines k = some p →
       lookupImg (stepOp s op).copyImagePipelines k = some p)
  ∧ (∀ k p, lookupBuf s.bufferToImagePipelines k = some p →
       lookupBuf (stepOp s op).bufferToImagePipelines k = some p)
  ∧ (∀ k p, lookupBuf s.imageToBufferPipelines k = some p →
       lookupBuf (stepOp s op).imageToBufferPipelines k = some p)
  ∧ (∀ p, s.copyBufferImagePipeline = some p →
       (stepOp s op).copyBufferImagePipeline = some p) := by
  cases op with
  | copyImage k0 =>
    cases hl : lookupImg s.copyImagePipelines k0 with
    | some q =>
      have hs : stepOp s (.copyImage k0) = s := by
        simp [stepOp, getCopyImagePipeline_hit s k0 q hl]
      rw [hs]
      exact ⟨fun k p hp => hp, fun k p hp => hp, fun k p hp => hp, fun p hp => hp⟩
    | none =>
      have hs : stepOp s (.copyImage k0)
          = { s with
                copyImagePipelines :=
                  (k0, ⟨0, s.pipelinesCreated + 1⟩) :: s.copyImagePipelines
                pipelinesCreated := s.pipelinesCreated + 1 } := by
        simp [stepOp, getCopyImagePipeline_miss s k0 hl]
      rw [hs]
      exact ⟨fun k p hp => lookupImg_cons_preserve _ _ _ _ _ hl hp,
        fun k p hp => hp, fun k p hp => hp, fun p hp => hp⟩
  | bufferToImage k0 =>
    cases hl : lookupBuf s.bufferToImagePipelines k0 with
    | some q =>
      have hs : stepOp s (.bufferToImage k0) = s := by
        simp [stepOp, getCopyBufferToImagePipeline_hit s k0 q hl]
      rw [hs]
      exact ⟨fun k p hp => hp, fun k p hp => hp, fun k p hp => hp, fun p hp => hp⟩
    | none =>
      have hs : stepOp s (.bufferToImage k0)
          = { s with
                bufferToImagePipelines :=
                  (k0, ⟨0, s.pipelinesCreated + 1⟩) :: s.bufferToImagePipelines
                pipelinesCreated := s.pipelinesCreated + 1 } := by
        simp [stepOp, getCopyBufferToImagePipeline_miss s k0 hl]
      rw [hs]
      exact ⟨fun k p hp => hp,
        fun k p hp => lookupBuf_cons_preserve _ _ _ _ _ hl hp,
        fun k p hp => hp, fun p hp => hp⟩
  | imageToBuffer k0 =>
    cases hl : lookupBuf s.imageToBufferPipelines k0 with
    | some q =>
      have hs : stepOp s (.imageToBuffer k0) = s := by
        simp [stepOp, getCopyImageToBufferPipeline_hit s k0 q hl]
      rw [hs]
      exact ⟨fun k p hp => hp, fun k p hp => hp, fun k p hp => hp, fun p hp => hp⟩
    | none =>
      have hs : stepOp s (.imageToBuffer k0)
          = { s with
                imageToBufferPipelines :=
                  (k0, ⟨0, s.pipelinesCreated + 1⟩) :: s.imageToBufferPipelines
                pipelinesCreated := s.pipelinesCreated + 1 } := by
        simp [stepOp, getCopyImageToBufferPipeline_miss s k0 hl]
      rw [hs]
      exact ⟨fun k p hp => hp, fun k p hp => hp,
        fun k p hp => lookupBuf_cons_preserve _ _ _ _ _ hl hp,
        fun p hp => hp⟩
  | formattedBuffer =>
    cases hl : s.copyBufferImagePipeline with
    | some q =>
      have hs : stepOp s .formattedBuffer = s := by
        simp [stepOp, getCopyFormattedBufferPipeline_hit s q hl]
      rw [hs]
      exact ⟨fun k p hp => hp, fun k p hp => hp, fun k p hp => hp,
        fun p hp => hl.trans hp⟩
    | none =>
      have hs : stepOp s .formattedBuffer
          = { s with
                copyBufferImagePipeline := some ⟨0, s.pipelinesCreated + 1⟩
                pipelinesCreated := s.pipelinesCreated + 1 } := by
        simp [stepOp, getCopyFormattedBufferPipeline, hl, createPipeline]
      rw [hs]
      exact ⟨fun k p hp => hp, fun k p hp => hp, fun k p hp => hp,
        fun p hp => Option.noConfusion hp⟩
  | queryFormats dstF dstA srcF srcA =>
    exact ⟨fun k p hp => hp, fun k p hp => hp, fun k p hp => hp, fun p hp => hp⟩

/-- C9 (witness): the theorem applied to a concrete state holding one image
pipeline and a filled singleton slot, stepped by a cache miss on a fresh
image-copy key: the old entry and the slot survive unchanged. -/
theorem C9_entries_never_replaced_or_evicted_witness :
    lookupImg (stepOp
        { copyImagePipelines := [(⟨1, 37, 1⟩, ⟨0, 1⟩)]
          bufferToImagePipelines := []
          imageToBufferPipelines := []
          copyBufferImagePipeline := some ⟨0, 2⟩
          pipelinesCreated := 2 }
        (.copyImage ⟨2, 70, 1⟩)).copyImagePipelines ⟨1, 37, 1⟩ = some ⟨0, 1⟩
  ∧ (stepOp
        { copyImagePipelines := [(⟨1, 37, 1⟩, ⟨0, 1⟩)]
          bufferToImagePipelines := []
          imageToBufferPipelines := []
          copyBufferImagePipeline := some ⟨0, 2⟩
          pipelinesCreated := 2 }
        (.copyImage ⟨2, 70, 1⟩)).copyBufferImagePipeline = some ⟨0, 2⟩ :=
  ⟨(C9_entries_never_replaced_or_evicted _ _).1 ⟨1, 37, 1⟩ ⟨0, 1⟩ rfl,
   (C9_entries_never_replaced_or_evicted _ _).2.2.2 ⟨0, 2⟩ rfl⟩

/-- C10: `getCopyImageFormats` — declared `const` in the header — leaves
the entire cache state unchanged for every input: the full state, each of
the three memoization tables, and the singleton formatted-buffer slot are
identical before and after the query. -/
theorem C10_getCopyImageFormats_frame (s : MetaCopyState)
    (dstF dstA srcF srcA : Nat) :
    stepOp s (.queryFormats dstF dstA srcF srcA) = s
  ∧ (stepOp s (.queryFormats dstF dstA srcF srcA)).copyImagePipelines
      = s.copyImagePipelines
  ∧ (stepOp s (.queryFormats dstF dstA srcF srcA)).bufferToImagePipelines
      = s.bufferToImagePipelines
  ∧ (stepOp s (.queryFormats dstF dstA srcF srcA)).imageToBufferPipelines
      = s.imageToBufferPipelines
  ∧ (stepOp s (.queryFormats dstF dstA srcF srcA)).copyBufferImagePipeline
      = s.copyBufferImagePipeline :=
  ⟨rfl, rfl, rfl, rfl, rfl⟩

end DxvkMetaCopy
